import Mathlib

/-!
Verification of the Action Execution Engine of this repository
(src/browser_use/controller/service.py and src/browser_use/playwright_logger.py)
against its natural-language specification.

The Python code is shallowly embedded: the pure control flow of
`Controller.multi_act`, `Controller.act`, the `click_element` handler and the
diff computation of `PlaywrightLogger.log_action_after_execute` are translated
into executable Lean functions.  External collaborators (the browser driver,
the DOM snapshot provider, the filesystem) are modelled as environment records
whose fields say what each external call would return or whether it would
raise.  A Python exception is an `Except.error` carrying `str(e)`.
-/

namespace BrowserUse

/-- Outcome of one action (browser_use.agent.views.ActionResult, spec section 3):
`extracted_content`, `error`, `is_done`, `include_in_memory` with the
pydantic defaults `None`/`None`/`False`/`False`. -/
structure ActionResult where
  extractedContent : Option String := none
  error : Option String := none
  isDone : Bool := false
  includeInMemory : Bool := false
deriving DecidableEq, Repr

/-- Python truthiness of `results[-1].error` (an `Optional[str]`) as tested in
`multi_act` (service.py line 472): `None` and the empty string are falsy,
every other string is truthy. -/
def errorTruthy (r : ActionResult) : Bool :=
  match r.error with
  | none => false
  | some s => !(s == "")

/-- A value stored in one field of an element-snapshot dictionary
(the dictionaries built by `PlaywrightLogger.store_element_info`). -/
inductive Val
  | s (v : String)
  | b (v : Bool)
  | n (v : Nat)
deriving DecidableEq, Repr

/-- An element snapshot as the audit logger sees it: a Python dict,
i.e. a field-name-to-value association list (keys unique in a real dict). -/
abbrev Snapshot := List (String × Val)

/-- The generic pre/post diff of `log_action_after_execute`
(playwright_logger.py lines 665-672): iterate the keys of the pre-action
dict; a key also present in the post-action dict whose value differs is
recorded with its before and after values. -/
def computeChanges (pre post : Snapshot) : List (String × Val × Val) :=
  pre.filterMap fun kv =>
    match post.lookup kv.1 with
    | some w => if kv.2 = w then none else some (kv.1, kv.2, w)
    | none => none

/-- The guard `if pre_action_element_info and post_action_element_info:`
around the diff (playwright_logger.py line 666): both dicts must be truthy
(not `None` and non-empty) for any diff to be computed. -/
def changesOf (preInfo postInfo : Option Snapshot) : List (String × Val × Val) :=
  match preInfo, postInfo with
  | some p, some q => if p = [] ∨ q = [] then [] else computeChanges p q
  | _, _ => []

/-- One entry appended to `PlaywrightLogger.actions`.  The pre entry uses the
phase string "pre-action" (playwright_logger.py line 429) and the post entry
"post_action" (line 676), exactly as in the source.  `durationMs` is the
`duration_ms` value of the post entry's `additional_data` (service.py
line 793); `changes` is the diff attached to the post entry. -/
structure AuditRecord where
  timestamp : Nat
  phase : String
  actionType : String
  elementIndex : Option Nat
  result : Option String
  error : Option String
  changes : List (String × Val × Val)
  durationMs : Option Nat
deriving DecidableEq, Repr

/-- Outcomes of the five durable writes performed by the logger for one
action: the pre-action text append and JSON save
(playwright_logger.py lines 349-423 and 440-446), and the post-action detail
append, summary append and JSON save (lines 563-613, 616-648, 692-698).
`Except.error e` means the underlying `open`/`write`/`json.dump` would raise
`e`; each of these sites is wrapped in `try/except` in the source. -/
structure LoggerWrites where
  preText : Except String Unit
  preJson : Except String Unit
  postDetail : Except String Unit
  postSummary : Except String Unit
  postJson : Except String Unit
deriving Repr

/-- Write environment in which every durable write succeeds. -/
def allWritesOk : LoggerWrites :=
  ⟨Except.ok (), Except.ok (), Except.ok (), Except.ok (), Except.ok ()⟩

/-- A `try/except` around one write: a failure is absorbed and reported on
the side diagnostic channel (`logger.error(...)` in the source), never
re-raised. -/
def tryWrite (w : Except String Unit) (tag : String) : List String :=
  match w with
  | Except.ok _ => []
  | Except.error e => [tag ++ e]

/-- Result of `log_action_before_execute`: the element info returned for the
later diff, the appended pre record, and diagnostic messages for any
absorbed write failures. -/
structure LogBeforeOut where
  info : Option Snapshot
  record : AuditRecord
  diag : List String
deriving Repr

/-- Model of `PlaywrightLogger.log_action_before_execute`
(playwright_logger.py lines 289-448).  `storedInfo` is what
`store_element_info` would return for the element index; it is consulted
only when an index is present (line 334).  The pre entry is appended to
`self.actions` unconditionally; the file writes may fail but every failure
is caught (lines 349-423, 440-446) and only produces diagnostics.  The
function returns the element info regardless of write outcomes (line 448). -/
def logBefore (writes : LoggerWrites) (actionType : String) (elementIndex : Option Nat)
    (storedInfo : Option Snapshot) (t : Nat) : LogBeforeOut :=
  { info := if elementIndex.isSome then storedInfo else none
    record :=
      { timestamp := t, phase := "pre-action", actionType := actionType,
        elementIndex := elementIndex, result := none, error := none,
        changes := [], durationMs := none }
    diag := tryWrite writes.preText "Error writing pre-action log: " ++
            tryWrite writes.preJson "Error saving pre-action JSON: " }

/-- Result of `log_action_after_execute`: the appended post record and the
diagnostics for absorbed write failures. -/
structure LogAfterOut where
  record : AuditRecord
  diag : List String
deriving Repr

/-- Model of `PlaywrightLogger.log_action_after_execute`
(playwright_logger.py lines 450-700).  `storedPostInfo` is what the fresh
`store_element_info` call (line 511) would return; it is consulted only when
an element index is present (line 509).  The diff attached to the post entry
is the generic one of lines 665-672 (the earlier field-specific diff of
lines 516-550 only feeds the console and the text log and is overwritten at
line 665).  All file writes are individually wrapped in `try/except`
(lines 563-613, 616-648, 692-698); the post entry is appended to
`self.actions` in every case. -/
def logAfter (writes : LoggerWrites) (actionType : String) (preInfo : Option Snapshot)
    (elementIndex : Option Nat) (storedPostInfo : Option Snapshot)
    (result err : Option String) (durationMs t : Nat) : LogAfterOut :=
  { record :=
      { timestamp := t, phase := "post_action", actionType := actionType,
        elementIndex := elementIndex, result := result, error := err,
        changes := changesOf preInfo (if elementIndex.isSome then storedPostInfo else none),
        durationMs := some durationMs }
    diag := tryWrite writes.postDetail "Error writing post-action detail log: " ++
            tryWrite writes.postSummary "Error writing post-action summary log: " ++
            tryWrite writes.postJson "Error saving post-action JSON: " }

/-- A value returned by a registered action handler, as discriminated by the
`isinstance` chain of `Controller.act` (service.py lines 724-731): a bare
string, a structured `ActionResult`, `None`, or a value of any other type
(carrying the strings Python would substitute for `type(result)` and
`result` in the error message). -/
inductive HandlerValue
  | str (s : String)
  | res (r : ActionResult)
  | empty
  | other (typeName valueStr : String)
deriving DecidableEq, Repr

/-- Normalization of the handler's return value (service.py lines 724-731):
a bare string becomes `extracted_content`, an `ActionResult` passes through,
`None` becomes an empty result, anything else raises
`ValueError(f'Invalid action result type: ...')`. -/
def normalizeResult (v : HandlerValue) : Except String ActionResult :=
  match v with
  | HandlerValue.str s => Except.ok { extractedContent := some s }
  | HandlerValue.res r => Except.ok r
  | HandlerValue.empty => Except.ok {}
  | HandlerValue.other t v => Except.error ("Invalid action result type: " ++ t ++ " of " ++ v)

/-- Modelled from the spec: `Registry.execute_action`
(src/browser_use/controller/registry/service.py is not under src/; only its
caller is).  Per spec section 4.1 the registry looks up the action, validates
the parameters and "invokes the handler ... and returns whatever the handler
returns"; nothing in sections 4.1/4.3 has the registry convert a handler
exception, so a raised handler exception passes through it unchanged. -/
def executeAction (handlerOutcome : Except String HandlerValue) : Except String HandlerValue :=
  handlerOutcome

/-- The element-index extraction of `Controller.act` (service.py
lines 507-515): only `click_element` and `input_text` actions yield an
`element_index`; `paramIndex` is `params['index']` when present. -/
def elementIndexOf (actionName : String) (paramIndex : Option Nat) : Option Nat :=
  if actionName = "click_element" ∨ actionName = "input_text" then paramIndex else none

/-- Environment of one `Controller.act` call: the action's name and
parameters, what `registry.execute_action` would do (`Except.error e` when
the handler — or `remove_highlights` before it — raises `e`), whether the
element-details collection of lines 544-656 produced a non-empty dict,
the outcome of the unprotected element-details file append of lines 671-706,
the element infos `store_element_info` would return at the pre and post
calls, the logger write outcomes, and the clock: `t0` at the pre log and
`t0 + dt` at the post log (`datetime.now()` is non-decreasing, so the post
timestamp is the pre timestamp plus a non-negative elapsed time). -/
structure ActEnv where
  actionName : String
  paramIndex : Option Nat
  handler : Except String HandlerValue
  hasElementDetails : Bool
  detailsWrite : Except String Unit
  preInfo : Option Snapshot
  postInfo : Option Snapshot
  writes : LoggerWrites
  t0 : Nat
  dt : Nat

/-- Whether the action is actually dispatched through the registry: the only
thing between the pre log and `execute_action` that can raise is the
unprotected element-details file append (service.py lines 671-706), taken
when the collected `element_details` dict is non-empty. -/
def ActEnv.dispatched (env : ActEnv) : Bool :=
  match (elementIndexOf env.actionName env.paramIndex).isSome && env.hasElementDetails,
        env.detailsWrite with
  | true, Except.error _ => false
  | _, _ => true

/-- Result of one `Controller.act` call: the returned `ActionResult` or the
propagated exception, the audit entries appended during the call, and the
diagnostics of absorbed logging failures. -/
structure ActOut where
  outcome : Except String ActionResult
  records : List AuditRecord
  diag : List String

/-- The `try/except/finally` block of `Controller.act` (service.py
lines 708-804), reached once the action is actually dispatched: a raised
exception is recorded (`error = str(e)`) and re-raised at line 739, a bad
result type raises `ValueError` at line 731 — in both cases the `finally`
(lines 741-802) still calls `log_action_after_execute` with the error and
the computed duration before the exception leaves `act`; on success the post
log records `result_str` (the extracted content, or "Success" when that is
falsy, line 734) and `act` returns the normalized result. -/
def actDispatch (env : ActEnv) : ActOut :=
  let elementIndex := elementIndexOf env.actionName env.paramIndex
  let pre := logBefore env.writes env.actionName elementIndex env.preInfo env.t0
  match executeAction env.handler with
  | Except.error e =>
      let post := logAfter env.writes env.actionName pre.info elementIndex env.postInfo
          none (some e) env.dt (env.t0 + env.dt)
      { outcome := Except.error e, records := [pre.record, post.record],
        diag := pre.diag ++ post.diag }
  | Except.ok v =>
      match normalizeResult v with
      | Except.error e =>
          let post := logAfter env.writes env.actionName pre.info elementIndex env.postInfo
              none (some e) env.dt (env.t0 + env.dt)
          { outcome := Except.error e, records := [pre.record, post.record],
            diag := pre.diag ++ post.diag }
      | Except.ok r =>
          let resultStr := match r.extractedContent with
            | some s => if s = "" then "Success" else s
            | none => "Success"
          let post := logAfter env.writes env.actionName pre.info elementIndex env.postInfo
              (some resultStr) none env.dt (env.t0 + env.dt)
          { outcome := Except.ok r, records := [pre.record, post.record],
            diag := pre.diag ++ post.diag }

/-- Model of `Controller.act` (service.py lines 480-806).  Control flow of
the source: the pre log runs first (line 660); if the element-details dict
is non-empty its unprotected file append (line 672) may raise, in which case
the exception propagates (the outer `except` at line 805 re-raises) and the
action is never dispatched; otherwise the dispatch block runs. -/
def act (env : ActEnv) : ActOut :=
  let elementIndex := elementIndexOf env.actionName env.paramIndex
  let pre := logBefore env.writes env.actionName elementIndex env.preInfo env.t0
  match elementIndex.isSome && env.hasElementDetails, env.detailsWrite with
  | true, Except.error e =>
      { outcome := Except.error e, records := [pre.record], diag := pre.diag }
  | _, _ => actDispatch env

/-- Whether an `Except` value is a normal return. -/
def exceptOkB {α : Type} (x : Except String α) : Bool :=
  match x with
  | Except.ok _ => true
  | Except.error _ => false

/-- The message of the exception raised by `click_element` (and mirrored by
`input_text`) when the index is absent from the current selector map
(service.py line 96). -/
def missingIndexMsg (idx : Nat) : String :=
  s!"Element with index {idx} does not exist - retry or use alternative actions"

/-- The informational message returned instead of clicking a file-upload
trigger (service.py line 103; note the trailing space of the source). -/
def fileUploadMsg (idx : Nat) : String :=
  s!"Index {idx} - has an element which opens file upload dialog. To upload files please use a specific function to upload files "

/-- Environment of one `click_element` handler invocation: the indices of the
cached selector map, which elements the browser reports as file-upload
triggers, whether `_click_element_node` would raise (and with what message),
the element's text used in the success message, and whether the click opened
a new tab (and whether switching to it would raise). -/
structure ClickEnv where
  selectorMap : List Nat
  isFileUploader : Nat → Bool
  clickRaises : Nat → Option String
  elementText : Nat → String
  newTabOpened : Bool
  switchRaises : Option String

/-- Model of the `click_element` handler (service.py lines 90-123).  The
first component is the handler's outcome (`Except.error` when it raises);
the second records whether the click primitive `_click_element_node` was
invoked.  An index absent from the selector map raises; a confirmed
file-upload trigger returns an informational result without clicking;
otherwise the element is clicked, and a failure of the click (or of the
new-tab switch) is caught by the handler's own `try/except` and returned as
an error-carrying result. -/
def clickElement (env : ClickEnv) (idx : Nat) : Except String ActionResult × Bool :=
  if idx ∉ env.selectorMap then
    (Except.error (missingIndexMsg idx), false)
  else if env.isFileUploader idx then
    (Except.ok { extractedContent := some (fileUploadMsg idx), includeInMemory := true }, false)
  else
    match env.clickRaises idx with
    | some e => (Except.ok { error := some e }, true)
    | none =>
      let base := s!"🖱️  Clicked button with index {idx}: {env.elementText idx}"
      if env.newTabOpened then
        match env.switchRaises with
        | some e => (Except.ok { error := some e }, true)
        | none =>
          (Except.ok { extractedContent := some (base ++ " - New tab opened - switching to it"),
                       includeInMemory := true }, true)
      else
        (Except.ok { extractedContent := some base, includeInMemory := true }, true)

/-- An `act` environment for a `click_element` request on index `idx`: the
handler outcome is what the `click_element` handler produces in `cenv`. -/
def clickActEnv (cenv : ClickEnv) (idx : Nat) (base : ActEnv) : ActEnv :=
  { base with
    actionName := "click_element"
    paramIndex := some idx
    handler := Except.map HandlerValue.res (clickElement cenv idx).1 }

/-- Model of the loop of `Controller.multi_act` (service.py lines 460-478),
from request index `i` with `fuel` remaining iterations (called with
`fuel = n - i`; the loop body runs only for `i < n`).  Arguments:
`hasIndex i` is whether `actions[i].get_index()` is not `None`; `obs i` is
the set of `branch_path_hash` values of a fresh `get_state()` before step
`i`; `step i` is what `self.act(actions[i], ...)` would do (an exception in
`act` propagates out of `multi_act`, discarding the accumulated results);
`cached` is the hash set of the cached state at batch start (line 457);
`check` is `check_for_new_elements`.  The first component is the returned
results list (or the propagated exception), the second the indices of the
requests actually executed. -/
def multiActGo (hasIndex : Nat → Bool) (obs : Nat → Finset Nat)
    (step : Nat → Except String ActionResult) (cached : Finset Nat)
    (check : Bool) (n : Nat) : Nat → Nat → Except String (List ActionResult) × List Nat
  | _, 0 => (Except.ok [], [])
  | i, fuel + 1 =>
    if n ≤ i then (Except.ok [], [])
    else if hasIndex i = true ∧ i ≠ 0 ∧ check = true ∧ ¬ obs i ⊆ cached then
      (Except.ok [], [])
    else
      match step i with
      | Except.error e => (Except.error e, [i])
      | Except.ok r =>
        if r.isDone = true ∨ errorTruthy r = true ∨ i = n - 1 then
          (Except.ok [r], [i])
        else
          match multiActGo hasIndex obs step cached check n (i + 1) fuel with
          | (Except.error e, ex) => (Except.error e, i :: ex)
          | (Except.ok rest, ex) => (Except.ok (r :: rest), i :: ex)

/-- Model of `Controller.multi_act` (service.py lines 445-478) over a batch
of `n` requests. -/
def multiAct (hasIndex : Nat → Bool) (obs : Nat → Finset Nat)
    (step : Nat → Except String ActionResult) (cached : Finset Nat)
    (check : Bool) (n : Nat) : Except String (List ActionResult) × List Nat :=
  multiActGo hasIndex obs step cached check n 0 n

/-! Concrete instances used by the witnesses and counterexamples below. -/

/-- Every request of the C1 scenario batch references a target index. -/
def c1wHasIndex : Nat → Bool := fun _ => true

/-- Observed structural-hash sets of the C1 scenario: before step 1 the hash
99 is present, which is absent from the batch-start set. -/
def c1wObs : Nat → Finset Nat := fun i => if i = 0 then {1} else {1, 99}

/-- Batch-start structural-hash set of the C1 scenario. -/
def c1wCached : Finset Nat := {1}

/-- Both steps of the C1 scenario would succeed if executed. -/
def c1wStep : Nat → Except String ActionResult :=
  fun _ => Except.ok { extractedContent := some "clicked" }

/-- No request of the C2 batches references a target index. -/
def c2cHasIndex : Nat → Bool := fun _ => false

/-- Observed hash sets of the C2 batches (never consulted). -/
def c2cObs : Nat → Finset Nat := fun _ => ∅

/-- Steps of the C2 counterexample batch: step 0 yields a result whose
`error` field is set to the empty string (as `ActionResult(error=str(e))`
does for an exception with an empty message). -/
def c2cStep : Nat → Except String ActionResult := fun i =>
  if i = 0 then Except.ok { error := some "" }
  else Except.ok { extractedContent := some "second action ran" }

/-- Step of the C2 witness batch: a `done` result. -/
def c2wStep : Nat → Except String ActionResult := fun _ => Except.ok { isDone := true }

/-- Browser state of the C3 scenario: the selector map holds indices 1-3,
so index 42 is absent. -/
def c3ClickEnv : ClickEnv :=
  { selectorMap := [1, 2, 3]
    isFileUploader := fun _ => false
    clickRaises := fun _ => none
    elementText := fun _ => "Submit"
    newTabOpened := false
    switchRaises := none }

/-- Remaining `act` environment of the C3 scenario: no element details were
collected, all audit writes succeed. -/
def c3BaseEnv : ActEnv :=
  { actionName := "unused"
    paramIndex := none
    handler := Except.ok HandlerValue.empty
    hasElementDetails := false
    detailsWrite := Except.ok ()
    preInfo := none
    postInfo := none
    writes := allWritesOk
    t0 := 0
    dt := 5 }

/-- Observed hash sets of the C3 batch (never consulted: the click is step 0). -/
def c3Obs : Nat → Finset Nat := fun _ => ∅

/-- The single step of the C3 batch: `act` on `click_element` with index 42. -/
def c3Step : Nat → Except String ActionResult :=
  fun _ => (act (clickActEnv c3ClickEnv 42 c3BaseEnv)).outcome

/-- Environment of the C4 counterexample: the registered handler raises
"boom" during execution. -/
def c4Env : ActEnv :=
  { actionName := "click_element"
    paramIndex := some 5
    handler := Except.error "boom"
    hasElementDetails := false
    detailsWrite := Except.ok ()
    preInfo := none
    postInfo := none
    writes := allWritesOk
    t0 := 3
    dt := 2 }

/-- Environment of the C5 witness: a successfully dispatched `input_text`. -/
def c5Env : ActEnv :=
  { actionName := "input_text"
    paramIndex := some 7
    handler := Except.ok (HandlerValue.res { extractedContent := some "typed", includeInMemory := true })
    hasElementDetails := true
    detailsWrite := Except.ok ()
    preInfo := some [("text_content", Val.s "old")]
    postInfo := some [("text_content", Val.s "new")]
    writes := allWritesOk
    t0 := 10
    dt := 4 }

/-- Environment of the C6 counterexample: a `click_element` whose collected
element-details dict is non-empty and whose unprotected element-details file
append (service.py line 672) fails; the handler itself would succeed. -/
def c6Env : ActEnv :=
  { actionName := "click_element"
    paramIndex := some 3
    handler := Except.ok (HandlerValue.res
      { extractedContent := some "clicked", includeInMemory := true })
    hasElementDetails := true
    detailsWrite := Except.error "disk full"
    preInfo := none
    postInfo := none
    writes := allWritesOk
    t0 := 0
    dt := 1 }

/-- Environment of the C7 witness: the handler returns a value that is
neither a string, an `ActionResult`, nor `None`. -/
def c7Env : ActEnv :=
  { actionName := "extract_content"
    paramIndex := none
    handler := Except.ok (HandlerValue.other "int" "5")
    hasElementDetails := false
    detailsWrite := Except.ok ()
    preInfo := none
    postInfo := none
    writes := allWritesOk
    t0 := 0
    dt := 1 }

/-- Browser state of the C9 witness: index 7 is in the selector map and is a
file-upload trigger. -/
def c9Env : ClickEnv :=
  { selectorMap := [7]
    isFileUploader := fun _ => true
    clickRaises := fun _ => none
    elementText := fun _ => "Upload"
    newTabOpened := false
    switchRaises := none }

/-- Environment of the C10 witness: a dispatched action whose handler raises
"element detached" mid-execution. -/
def c10Env : ActEnv :=
  { actionName := "click_element"
    paramIndex := some 2
    handler := Except.error "element detached"
    hasElementDetails := true
    detailsWrite := Except.ok ()
    preInfo := some [("is_visible", Val.b true)]
    postInfo := none
    writes := allWritesOk
    t0 := 100
    dt := 250 }

/-! Helper lemmas shared by the claim theorems. -/

/-- A dispatched `act` call runs the dispatch block: the element-details
append either did not happen or succeeded. -/
theorem act_of_dispatched (env : ActEnv) (hd : env.dispatched = true) :
    act env = actDispatch env := by
  simp only [act]
  cases hb : (elementIndexOf env.actionName env.paramIndex).isSome && env.hasElementDetails with
  | false => rfl
  | true =>
    cases hw : env.detailsWrite with
    | ok u => rfl
    | error e =>
      exfalso
      unfold ActEnv.dispatched at hd
      rw [hb, hw] at hd
      simp at hd

/-- A handler exception propagates out of a dispatched `act` call with the
same message. -/
theorem act_outcome_of_handler_error (env : ActEnv) (e : String)
    (hd : env.dispatched = true) (he : env.handler = Except.error e) :
    (act env).outcome = Except.error e := by
  rw [act_of_dispatched env hd]
  simp only [actDispatch, executeAction, he]

/-- A one-request batch whose single `act` call raises propagates the
exception out of `multi_act`. -/
theorem multiAct_one_raises (hasIndex : Nat → Bool) (obs : Nat → Finset Nat)
    (step : Nat → Except String ActionResult) (cached : Finset Nat) (check : Bool)
    (e : String) (h : step 0 = Except.error e) :
    (multiAct hasIndex obs step cached check 1).1 = Except.error e := by
  unfold multiAct
  rw [show (1 : Nat) = 0 + 1 from rfl]
  rw [multiActGo]
  rw [if_neg (by omega : ¬ (0 + 1 ≤ 0))]
  rw [if_neg (fun hg => hg.2.1 rfl)]
  rw [h]

/-- In any normally-returned results list, a result whose `error` field is
truthy or whose `is_done` is set is the last one: the loop of `multi_act`
breaks right after appending it. -/
theorem multiActGo_stop (hasIndex : Nat → Bool) (obs : Nat → Finset Nat)
    (step : Nat → Except String ActionResult) (cached : Finset Nat)
    (check : Bool) (n : Nat) :
    ∀ fuel i l, (multiActGo hasIndex obs step cached check n i fuel).1 = Except.ok l →
      ∀ k, (hk : k < l.length) →
        (errorTruthy (l.get ⟨k, hk⟩) = true ∨ (l.get ⟨k, hk⟩).isDone = true) →
        l.length = k + 1 := by
  intro fuel
  induction fuel with
  | zero =>
    intro i l hl k hk hstop
    simp only [multiActGo] at hl
    obtain rfl := (Except.ok.inj hl).symm
    simp at hk
  | succ fuel ih =>
    intro i l hl k hk hstop
    rw [multiActGo] at hl
    split at hl
    · dsimp only at hl
      obtain rfl := (Except.ok.inj hl).symm
      simp at hk
    · split at hl
      · dsimp only at hl
        obtain rfl := (Except.ok.inj hl).symm
        simp at hk
      · cases hstep : step i with
        | error e =>
          rw [hstep] at hl
          dsimp only at hl
          exact absurd hl (by simp)
        | ok r =>
          rw [hstep] at hl
          dsimp only at hl
          split at hl
          · dsimp only at hl
            obtain rfl := (Except.ok.inj hl).symm
            cases k with
            | zero => rfl
            | succ k => simp at hk
          · rename_i hcont
            rcases hrec : multiActGo hasIndex obs step cached check n (i + 1) fuel with ⟨res, ex⟩
            rw [hrec] at hl
            cases res with
            | error e =>
              dsimp only at hl
              exact absurd hl (by simp)
            | ok rest =>
              dsimp only at hl
              obtain rfl := (Except.ok.inj hl).symm
              cases k with
              | zero =>
                exfalso
                rcases hstop with hstop | hstop
                · exact hcont (Or.inr (Or.inl (by simpa using hstop)))
                · exact hcont (Or.inl (by simpa using hstop))
              | succ k =>
                have hrest : (multiActGo hasIndex obs step cached check n (i + 1) fuel).1 =
                    Except.ok rest := by rw [hrec]
                have hk2 : k < rest.length := by simpa using hk
                have := ih (i + 1) rest hrest k hk2 (by simpa using hstop)
                simpa using this

/-- Reaching the staleness gate at step `i` (every earlier step executed
with a non-stopping result, every earlier gate passed), the fate of step `i`
is decided exactly by the subset check: step `i` is executed iff the freshly
observed hash set is contained in the batch-start set, and otherwise the
batch stops with exactly the `i` earlier results and no step at or after `i`
executed. -/
theorem multiActGo_reach (hasIndex : Nat → Bool) (obs : Nat → Finset Nat)
    (step : Nat → Except String ActionResult) (cached : Finset Nat) (n i : Nat)
    (hin : i < n) (hi0 : 0 < i) (hIdx : hasIndex i = true)
    (hprev : ∀ k, k < i → ∃ r, step k = Except.ok r ∧ r.isDone = false ∧ errorTruthy r = false)
    (hgates : ∀ k, 0 < k → k < i → obs k ⊆ cached) :
    ∀ d j, j ≤ i → i - j = d →
      (i ∈ (multiActGo hasIndex obs step cached true n j (n - j)).2 ↔ obs i ⊆ cached) ∧
      (¬ obs i ⊆ cached →
        (∀ m, i ≤ m → m ∉ (multiActGo hasIndex obs step cached true n j (n - j)).2) ∧
        ∃ l, (multiActGo hasIndex obs step cached true n j (n - j)).1 = Except.ok l ∧
          l.length = i - j) := by
  intro d
  induction d with
  | zero =>
    intro j hj hd
    obtain rfl : j = i := by omega
    obtain ⟨f, hf⟩ : ∃ f, n - j = f + 1 := ⟨n - j - 1, by omega⟩
    rw [hf, multiActGo]
    rw [if_neg (by omega : ¬ n ≤ j)]
    by_cases hsub : obs j ⊆ cached
    · rw [if_neg (fun hg => hg.2.2.2 hsub)]
      cases hstep : step j with
      | error e =>
        dsimp only
        exact ⟨by simp [hsub], fun hns => absurd hsub hns⟩
      | ok r =>
        dsimp only
        refine ⟨?_, fun hns => absurd hsub hns⟩
        split
        · simp [hsub]
        · rcases hrec : multiActGo hasIndex obs step cached true n (j + 1) f with ⟨res, ex⟩
          cases res <;> simp [hsub]
    · rw [if_pos ⟨hIdx, by omega, rfl, hsub⟩]
      exact ⟨by simp [hsub], fun _ => ⟨by simp, [], rfl, by simp⟩⟩
  | succ d ih =>
    intro j hj hd
    have hji : j < i := by omega
    obtain ⟨f, hf⟩ : ∃ f, n - j = f + 1 := ⟨n - j - 1, by omega⟩
    have hff : f = n - (j + 1) := by omega
    rw [hf, multiActGo]
    rw [if_neg (by omega : ¬ n ≤ j)]
    rw [if_neg (?gneg : ¬ (hasIndex j = true ∧ j ≠ 0 ∧ true = true ∧ ¬ obs j ⊆ cached))]
    case gneg =>
      rintro ⟨-, hj0, -, hns⟩
      exact hns (hgates j (Nat.pos_of_ne_zero hj0) hji)
    obtain ⟨r, hstep, hdone, herr⟩ := hprev j hji
    rw [hstep]
    dsimp only
    rw [if_neg (?sneg : ¬ (r.isDone = true ∨ errorTruthy r = true ∨ j = n - 1))]
    case sneg =>
      rintro (h | h | h)
      · rw [hdone] at h; exact Bool.false_ne_true h
      · rw [herr] at h; exact Bool.false_ne_true h
      · omega
    rw [hff]
    have IH := ih (j + 1) (by omega) (by omega)
    rcases hrec : multiActGo hasIndex obs step cached true n (j + 1) (n - (j + 1)) with ⟨res, ex⟩
    rw [hrec] at IH
    cases res with
    | error e =>
      refine ⟨?_, fun hns => ?_⟩
      · dsimp only
        rw [List.mem_cons]
        have hij : i ≠ j := by omega
        simp only [hij, false_or]
        exact IH.1
      · rcases (IH.2 hns).2 with ⟨l, hl, -⟩
        exact absurd hl (by simp)
    | ok rest =>
      refine ⟨?_, fun hns => ?_⟩
      · dsimp only
        rw [List.mem_cons]
        have hij : i ≠ j := by omega
        simp only [hij, false_or]
        exact IH.1
      · obtain ⟨hnot, l, hl, hlen⟩ := IH.2 hns
        obtain rfl : rest = l := by simpa using hl
        refine ⟨?_, r :: rest, rfl, ?_⟩
        · intro m hm
          dsimp only
          rw [List.mem_cons]
          rintro (rfl | hm2)
          · omega
          · exact hnot m hm hm2
        · dsimp only at hlen ⊢
          simp only [List.length_cons]
          omega

/-! Claim theorems. -/

/-- C1: in a `multi_act` batch with `check_for_new_elements = true`, once the
staleness gate of step `i > 0` (a step referencing a target index) is
reached — every earlier step executed with a non-stopping result and every
earlier gate passed — step `i` is executed if and only if the freshly
observed structural-hash set is a subset of the batch-start set; when it is
not a subset, no step at or after `i` executes and the batch returns exactly
the `i` earlier results (so in the spec's scenario, aborting before step 1
returns a results list of length exactly 1). -/
theorem c1_staleness_gate (hasIndex : Nat → Bool) (obs : Nat → Finset Nat)
    (step : Nat → Except String ActionResult) (cached : Finset Nat) (n i : Nat)
    (hin : i < n) (hi0 : 0 < i) (hIdx : hasIndex i = true)
    (hprev : ∀ k, k < i → ∃ r, step k = Except.ok r ∧ r.isDone = false ∧ errorTruthy r = false)
    (hgates : ∀ k, 0 < k → k < i → obs k ⊆ cached) :
    (i ∈ (multiAct hasIndex obs step cached true n).2 ↔ obs i ⊆ cached) ∧
    (¬ obs i ⊆ cached →
      (∀ m, i ≤ m → m ∉ (multiAct hasIndex obs step cached true n).2) ∧
      ∃ l, (multiAct hasIndex obs step cached true n).1 = Except.ok l ∧ l.length = i) := by
  have h := multiActGo_reach hasIndex obs step cached n i hin hi0 hIdx hprev hgates i 0
    (by omega) (by omega)
  unfold multiAct
  exact h

/-- C1 witness: the staleness-abort scenario at concrete inputs — a 2-step
batch whose step 1 references an index, with hash 99 appearing before step 1
although absent at batch start, returns exactly 1 result. -/
theorem c1_staleness_gate_witness :
    (1 < 2 ∧ 0 < 1 ∧ c1wHasIndex 1 = true ∧ ¬ c1wObs 1 ⊆ c1wCached) ∧
    ∃ l, (multiAct c1wHasIndex c1wObs c1wStep c1wCached true 2).1 = Except.ok l ∧
      l.length = 1 :=
  ⟨⟨by decide, by decide, rfl, by decide⟩,
    ((c1_staleness_gate c1wHasIndex c1wObs c1wStep c1wCached 2 1 (by decide) (by decide) rfl
      (fun k hk => ⟨{ extractedContent := some "clicked" }, rfl, rfl, rfl⟩)
      (fun k h1 h2 => absurd (h1.trans_le (Nat.le_of_lt_succ h2)) (lt_irrefl 0))).2
      (by decide)).2⟩

/-- C2 counterexample: the claim as stated is false on the code.  In the
batch `c2cStep` step 0 returns a result whose `error` field is set (to the
empty string, as `ActionResult(error=str(e))` yields for an exception with
an empty message); because `multi_act` tests Python truthiness of
`results[-1].error` rather than `is not None`, the batch continues and a
result at position 1 exists. -/
theorem c2_counterexample :
    ¬ (∀ l, (multiAct c2cHasIndex c2cObs c2cStep ∅ true 2).1 = Except.ok l →
        ∀ k, (hk : k < l.length) →
          ((l.get ⟨k, hk⟩).error.isSome = true ∨ (l.get ⟨k, hk⟩).isDone = true) →
          l.length = k + 1) := by
  intro h
  have h2 := h [{ error := some "" }, { extractedContent := some "second action ran" }]
    rfl 0 (by decide) (Or.inl rfl)
  simp at h2

/-- C2 (amended): if `results[k].error` is set to a truthy (non-empty)
string, or `results[k].isDone` is true, then no result at any position after
`k` exists — the batch stops right after appending that result.  (A result
whose `error` is the empty string does not stop the batch.) -/
theorem c2_stop_conditions (hasIndex : Nat → Bool) (obs : Nat → Finset Nat)
    (step : Nat → Except String ActionResult) (cached : Finset Nat)
    (check : Bool) (n : Nat) (l : List ActionResult)
    (hrun : (multiAct hasIndex obs step cached check n).1 = Except.ok l)
    (k : Nat) (hk : k < l.length)
    (hstop : errorTruthy (l.get ⟨k, hk⟩) = true ∨ (l.get ⟨k, hk⟩).isDone = true) :
    l.length = k + 1 :=
  multiActGo_stop hasIndex obs step cached check n n 0 l hrun k hk hstop

/-- C2 witness: a one-step batch returning a `done` result stops with that
result last. -/
theorem c2_stop_conditions_witness :
    (multiAct c2cHasIndex c2cObs c2wStep ∅ true 1).1 =
      Except.ok [{ isDone := true }] ∧
    ([({ isDone := true } : ActionResult)] : List ActionResult).length = 0 + 1 :=
  ⟨rfl, c2_stop_conditions c2cHasIndex c2cObs c2wStep ∅ true 1
    [{ isDone := true }] rfl 0 (by decide) (Or.inr rfl)⟩

/-- C3 counterexample: the claim as stated is false on the code.  A batch
containing `click(idx=42)` with 42 absent from the selector map does not
return a length-1 results list carrying the error: the handler raises, `act`
logs and re-raises (service.py lines 736-739, 805-806), and the exception
propagates out of `multi_act`, so the batch call raises instead of
returning. -/
theorem c3_counterexample :
    exceptOkB (multiAct (fun _ => true) c3Obs c3Step ∅ true 1).1 = false ∧
    (multiAct (fun _ => true) c3Obs c3Step ∅ true 1).1 =
      Except.error "Element with index 42 does not exist - retry or use alternative actions" ∧
    missingIndexMsg 42 =
      "Element with index 42 does not exist - retry or use alternative actions" :=
  ⟨rfl, rfl, rfl⟩

/-- C3 (amended): a batch whose request hits a page-state problem does not
yield a shortened results list; the handler's exception
"Element with index ... does not exist - retry or use alternative actions"
propagates through `act` and out of the batch call unchanged. -/
theorem c3_missing_target_raises (cenv : ClickEnv) (idx : Nat) (base : ActEnv)
    (obs : Nat → Finset Nat) (cached : Finset Nat)
    (hmem : idx ∉ cenv.selectorMap)
    (hdisp : (clickActEnv cenv idx base).dispatched = true) :
    (multiAct (fun _ => true) obs
        (fun _ => (act (clickActEnv cenv idx base)).outcome) cached true 1).1 =
      Except.error (missingIndexMsg idx) := by
  have hclick : (clickElement cenv idx).1 = Except.error (missingIndexMsg idx) := by
    unfold clickElement
    rw [if_pos hmem]
  have hhandler : (clickActEnv cenv idx base).handler = Except.error (missingIndexMsg idx) := by
    show Except.map HandlerValue.res (clickElement cenv idx).1 = _
    rw [hclick]
    rfl
  exact multiAct_one_raises _ _ _ _ _ _
    (act_outcome_of_handler_error _ _ hdisp hhandler)

/-- C3 witness: the amended behaviour at index 42 against a selector map
holding only indices 1-3. -/
theorem c3_missing_target_raises_witness :
    (42 ∉ c3ClickEnv.selectorMap ∧ (clickActEnv c3ClickEnv 42 c3BaseEnv).dispatched = true) ∧
    (multiAct (fun _ => true) c3Obs
        (fun _ => (act (clickActEnv c3ClickEnv 42 c3BaseEnv)).outcome) ∅ true 1).1 =
      Except.error (missingIndexMsg 42) :=
  ⟨⟨by decide, rfl⟩,
    c3_missing_target_raises c3ClickEnv 42 c3BaseEnv c3Obs ∅ (by decide) rfl⟩

/-- C4 counterexample: the claim as stated is false on the code.  With a
handler that raises "boom", `act` does not return an `ActionResult` whose
`error` is "boom": it re-raises (service.py lines 736-739, 805-806) and the
exception reaches the caller. -/
theorem c4_counterexample :
    exceptOkB (act c4Env).outcome = false ∧
    (act c4Env).outcome = Except.error "boom" :=
  ⟨rfl, rfl⟩

/-- C4 (amended): an exception raised inside the registered handler during a
dispatched execution is recorded for the audit log but then re-raised by the
executor layer: `act` propagates it to the caller with the same message
instead of converting it into an `ActionResult`. -/
theorem c4_handler_error_propagates (env : ActEnv) (e : String)
    (hd : env.dispatched = true) (he : env.handler = Except.error e) :
    (act env).outcome = Except.error e ∧ exceptOkB (act env).outcome = false := by
  have h := act_outcome_of_handler_error env e hd he
  exact ⟨h, by rw [h]; rfl⟩

/-- C4 witness: the amended behaviour at the concrete "boom" environment. -/
theorem c4_handler_error_propagates_witness :
    (c4Env.dispatched = true ∧ c4Env.handler = Except.error "boom") ∧
    (act c4Env).outcome = Except.error "boom" ∧ exceptOkB (act c4Env).outcome = false :=
  ⟨⟨rfl, rfl⟩, c4_handler_error_propagates c4Env "boom" rfl rfl⟩

/-- C5: every dispatched `act` call appends exactly one pre-phase and one
post-phase audit record, both carrying the action's type, with the post
timestamp at least the pre timestamp. -/
theorem c5_audit_pairing (env : ActEnv) (hd : env.dispatched = true) :
    ∃ p q, (act env).records = [p, q] ∧
      p.phase = "pre-action" ∧ q.phase = "post_action" ∧
      p.actionType = env.actionName ∧ q.actionType = env.actionName ∧
      p.timestamp ≤ q.timestamp := by
  rw [act_of_dispatched env hd]
  simp only [actDispatch, executeAction]
  cases hh : env.handler with
  | error e => exact ⟨_, _, rfl, rfl, rfl, rfl, rfl, Nat.le_add_right _ _⟩
  | ok v =>
    cases v with
    | str s => exact ⟨_, _, rfl, rfl, rfl, rfl, rfl, Nat.le_add_right _ _⟩
    | res r => exact ⟨_, _, rfl, rfl, rfl, rfl, rfl, Nat.le_add_right _ _⟩
    | empty => exact ⟨_, _, rfl, rfl, rfl, rfl, rfl, Nat.le_add_right _ _⟩
    | other t w => exact ⟨_, _, rfl, rfl, rfl, rfl, rfl, Nat.le_add_right _ _⟩

/-- C5 witness: the audit pairing at the concrete `input_text` environment. -/
theorem c5_audit_pairing_witness :
    c5Env.dispatched = true ∧
    ∃ p q, (act c5Env).records = [p, q] ∧
      p.phase = "pre-action" ∧ q.phase = "post_action" ∧
      p.actionType = c5Env.actionName ∧ q.actionType = c5Env.actionName ∧
      p.timestamp ≤ q.timestamp :=
  ⟨rfl, c5_audit_pairing c5Env rfl⟩

/-- C6 counterexample: the claim as stated is false on the code.  The
audit-logging path of `act` includes the element-details file append
(service.py lines 671-706), which has no `try/except` of its own (and whose
target attribute `element_details_log_file` is never defined on
`PlaywrightLogger`): when that write fails, `act` raises instead of
returning the normal `ActionResult` it returns when the write succeeds. -/
theorem c6_counterexample :
    (act { c6Env with detailsWrite := Except.ok () }).outcome =
      Except.ok { extractedContent := some "clicked", error := none,
                  isDone := false, includeInMemory := true } ∧
    exceptOkB (act c6Env).outcome = false ∧
    (act c6Env).outcome = Except.error "disk full" :=
  ⟨rfl, rfl, rfl⟩

/-- C6 (amended): a failure of any of the logger's own durable writes (the
human-readable appends, the JSON saves, and the serialization inside
`_save_json` — playwright_logger.py lines 349-423, 440-446, 563-613,
616-648, 692-698, 704-817) is absorbed inside the logging layer and leaves
the outcome and the appended audit entries of `act` exactly as when all
those writes succeed; but a failure of the element-details file append
performed by `act` itself (service.py lines 671-706), which no `try/except`
protects, propagates out of `act` — only the pre record is appended and the
action is never dispatched. -/
theorem c6_logging_resilience :
    (∀ env : ActEnv,
      (act env).outcome = (act { env with writes := allWritesOk }).outcome ∧
      (act env).records = (act { env with writes := allWritesOk }).records) ∧
    (∀ (env : ActEnv) (e : String),
      (elementIndexOf env.actionName env.paramIndex).isSome = true →
      env.hasElementDetails = true →
      env.detailsWrite = Except.error e →
      (act env).outcome = Except.error e ∧
      (act env).records = [(logBefore env.writes env.actionName
          (elementIndexOf env.actionName env.paramIndex) env.preInfo env.t0).record]) := by
  constructor
  · intro env
    cases env with
    | mk aN pI hndlr hED dW preI postI w t0d dtd =>
      simp only [act, actDispatch, executeAction]
      cases hb : (elementIndexOf aN pI).isSome && hED with
      | true =>
        cases dW with
        | error e => exact ⟨rfl, rfl⟩
        | ok u =>
          cases hndlr with
          | error e => exact ⟨rfl, rfl⟩
          | ok v => cases v <;> exact ⟨rfl, rfl⟩
      | false =>
        cases hndlr with
        | error e => exact ⟨rfl, rfl⟩
        | ok v => cases v <;> exact ⟨rfl, rfl⟩
  · intro env e h1 h2 h3
    simp only [act]
    rw [h1, h2, h3]
    exact ⟨rfl, rfl⟩

/-- C6 witness: the amended behaviour at the concrete environment whose
element-details append fails with "disk full". -/
theorem c6_logging_resilience_witness :
    ((elementIndexOf c6Env.actionName c6Env.paramIndex).isSome = true ∧
      c6Env.hasElementDetails = true ∧
      c6Env.detailsWrite = Except.error "disk full") ∧
    (act c6Env).outcome = Except.error "disk full" ∧
    (act c6Env).records = [(logBefore c6Env.writes c6Env.actionName
        (elementIndexOf c6Env.actionName c6Env.paramIndex) c6Env.preInfo c6Env.t0).record] :=
  ⟨⟨rfl, rfl, rfl⟩, c6_logging_resilience.2 c6Env "disk full" rfl rfl rfl⟩

/-- C7: the handler-result normalization of `act` — a bare string becomes
`extracted_content`, an `ActionResult` passes through unchanged, an empty
(`None`) return becomes an empty non-error result, and any other return type
raises `ValueError('Invalid action result type: ...')`, which is fatal: it
propagates out of a dispatched `act` call instead of being converted into a
result. -/
theorem c7_result_normalization :
    (∀ s, normalizeResult (HandlerValue.str s) =
      Except.ok { extractedContent := some s, error := none,
                  isDone := false, includeInMemory := false }) ∧
    (∀ r, normalizeResult (HandlerValue.res r) = Except.ok r) ∧
    normalizeResult HandlerValue.empty =
      Except.ok { extractedContent := none, error := none,
                  isDone := false, includeInMemory := false } ∧
    (∀ t v, normalizeResult (HandlerValue.other t v) =
      Except.error ("Invalid action result type: " ++ t ++ " of " ++ v)) ∧
    (∀ env t v, env.dispatched = true → env.handler = Except.ok (HandlerValue.other t v) →
      (act env).outcome = Except.error ("Invalid action result type: " ++ t ++ " of " ++ v)) := by
  refine ⟨fun _ => rfl, fun _ => rfl, rfl, fun _ _ => rfl, ?_⟩
  intro env t v hd he
  rw [act_of_dispatched env hd]
  simp only [actDispatch, executeAction, he, normalizeResult]

/-- C7 witness: a handler returning a value of a foreign type at the
concrete environment makes the dispatched `act` call raise the fatal
invalid-result-type error. -/
theorem c7_result_normalization_witness :
    (c7Env.dispatched = true ∧ c7Env.handler = Except.ok (HandlerValue.other "int" "5")) ∧
    (act c7Env).outcome = Except.error ("Invalid action result type: " ++ "int" ++ " of " ++ "5") :=
  ⟨⟨rfl, rfl⟩, c7_result_normalization.2.2.2.2 c7Env "int" "5" rfl rfl⟩

/-- C8: the diff attached to the post record contains exactly the fields
present in both snapshots whose values differ, each mapped to its before and
after values; on the spec's example pre-snapshot (text "A", visible true)
and post-snapshot (text "B", visible true) the diff is exactly
(text, before "A", after "B"); and the post record built by the logger
carries exactly this computed diff. -/
theorem c8_diff_exactness :
    (∀ pre post k b a, (k, b, a) ∈ computeChanges pre post ↔
        ((k, b) ∈ pre ∧ post.lookup k = some a ∧ b ≠ a)) ∧
    computeChanges [("text", Val.s "A"), ("visible", Val.b true)]
        [("text", Val.s "B"), ("visible", Val.b true)] = [("text", Val.s "A", Val.s "B")] ∧
    (∀ writes actionType preInfo idx storedPostInfo res err dur t,
      (logAfter writes actionType preInfo (some idx) storedPostInfo res err dur t).record.changes =
        changesOf preInfo storedPostInfo) := by
  refine ⟨?_, rfl, fun _ _ _ _ _ _ _ _ _ => rfl⟩
  intro pre post k b a
  unfold computeChanges
  rw [List.mem_filterMap]
  constructor
  · rintro ⟨⟨k2, v2⟩, hmem, hf⟩
    dsimp only at hf
    cases hlk : post.lookup k2 with
    | none =>
      rw [hlk] at hf
      exact absurd hf (by simp)
    | some w =>
      rw [hlk] at hf
      dsimp only at hf
      by_cases hvw : v2 = w
      · rw [if_pos hvw] at hf
        exact absurd hf (by simp)
      · rw [if_neg hvw] at hf
        simp only [Option.some.injEq, Prod.mk.injEq] at hf
        obtain ⟨rfl, rfl, rfl⟩ := hf
        exact ⟨hmem, hlk, hvw⟩
  · rintro ⟨hmem, hlk, hne⟩
    refine ⟨(k, b), hmem, ?_⟩
    dsimp only
    rw [hlk]
    dsimp only
    rw [if_neg hne]

/-- C9: a click on an element confirmed to be a file-upload trigger is
refused: the handler returns (without raising) a result with no error, an
`extracted_content` explaining the refusal, and `include_in_memory = true`,
and the click primitive `_click_element_node` is never invoked. -/
theorem c9_file_upload_guard (env : ClickEnv) (idx : Nat)
    (hmem : idx ∈ env.selectorMap) (hup : env.isFileUploader idx = true) :
    clickElement env idx =
      (Except.ok { extractedContent := some (fileUploadMsg idx), error := none,
                   isDone := false, includeInMemory := true }, false) := by
  unfold clickElement
  rw [if_neg (not_not_intro hmem)]
  simp [hup]

/-- C9 witness: the guard at the concrete environment where index 7 is a
file-upload trigger. -/
theorem c9_file_upload_guard_witness :
    (7 ∈ c9Env.selectorMap ∧ c9Env.isFileUploader 7 = true) ∧
    clickElement c9Env 7 =
      (Except.ok { extractedContent := some (fileUploadMsg 7), error := none,
                   isDone := false, includeInMemory := true }, false) :=
  ⟨⟨by decide, rfl⟩, c9_file_upload_guard c9Env 7 (by decide) rfl⟩

/-- C10: when a dispatched action's handler raises, the post-phase audit
call still runs — the appended records contain a post record carrying the
error message and a computed duration — and only then is the exception
re-raised out of `act`. -/
theorem c10_post_log_on_exception (env : ActEnv) (e : String)
    (hd : env.dispatched = true) (he : env.handler = Except.error e) :
    (act env).outcome = Except.error e ∧
    ∃ q, q ∈ (act env).records ∧ q.phase = "post_action" ∧
      q.error = some e ∧ q.durationMs = some env.dt := by
  refine ⟨act_outcome_of_handler_error env e hd he, ?_⟩
  rw [act_of_dispatched env hd]
  simp only [actDispatch, executeAction, he]
  exact ⟨_, List.mem_cons_of_mem _ (List.mem_cons_self _ _), rfl, rfl, rfl⟩

/-- C10 witness: the post record on the exception path at the concrete
"element detached" environment. -/
theorem c10_post_log_on_exception_witness :
    (c10Env.dispatched = true ∧ c10Env.handler = Except.error "element detached") ∧
    ((act c10Env).outcome = Except.error "element detached" ∧
      ∃ q, q ∈ (act c10Env).records ∧ q.phase = "post_action" ∧
        q.error = some "element detached" ∧ q.durationMs = some c10Env.dt) :=
  ⟨⟨rfl, rfl⟩, c10_post_log_on_exception c10Env "element detached" rfl rfl⟩

end BrowserUse
